import Mathlib

/-!
Shallow embedding of the signal control engine of
`src/python_code/traffic_light_controller.py` (class `DualTrafficLightAI`).

The embedded parts are exactly the ones the verified claims are about:

* `sendCommands`     — method `send_commands` (the Command Emitter);
* `updateTrafficLights` — method `update_traffic_lights` (the Mode State Machine);
* `resetStep`        — the body of the `key == ord('r')` branch of `run`;
* `getConfirmedCarCount` — method `get_confirmed_car_count` (the Detection
  Stabilizer), with `pyRound` modelling Python's banker's rounding `round`.

Timestamps (Python `time.time()` floats) are modelled as rationals, car counts
as integers.  The serial link is modelled by the list of byte strings written
during a step, together with a `writeOk : Bool` input saying whether the
`arduino.write` call of that step succeeds; when it fails, the exception is
swallowed inside `send_commands` (its whole body is wrapped in `try`), leaving
`light_a`/`light_b` unchanged.  The one raw write `arduino.write(b'H\n')` at
line 332 is *not* inside a `try`; on failure the exception aborts the tick
before the mode flags are assigned (the state is left unchanged).

`yellow_start_time` and `high_traffic_start_time` are `None` in `__init__` and
are read only under flags that are always set together with them; they are
modelled as rationals initialised to `0`.
-/

namespace TrafficLight

/-- Light colors `'R'`, `'Y'`, `'G'` of the Python code. -/
inductive Light where
  | R
  | Y
  | G
deriving DecidableEq, Repr

/-- Traffic directions `'A'` (AI side) and `'B'` (cross traffic). -/
inductive Dir where
  | A
  | B
deriving DecidableEq, Repr

open Light

/-- `YELLOW_DURATION = 2` (seconds). -/
def YELLOW_DURATION : ℚ := 2

/-- `HIGH_TRAFFIC_TIMER = 30` (seconds). -/
def HIGH_TRAFFIC_TIMER : ℚ := 30

/-- `HIGH_TRAFFIC_THRESHOLD = 8` (cars). -/
def HIGH_TRAFFIC_THRESHOLD : ℤ := 8

/-- `DETECTION_CONFIRMATION_TIME = 3` (seconds). -/
def DETECTION_CONFIRMATION_TIME : ℚ := 3

/-- `DETECTION_HISTORY_SIZE = 10` (frames). -/
def DETECTION_HISTORY_SIZE : ℕ := 10

/-- The wire character of a light color. -/
def Light.char : Light → Char
  | R => 'R'
  | Y => 'Y'
  | G => 'G'

/-- The command string built at lines 244-248:
`command = f"A{light_a}B{light_b}"`, plus `"H"` when `high_traffic_alert`. -/
def cmdString (la lb : Light) (alert : Bool) : String :=
  "A" ++ String.singleton la.char ++ "B" ++ String.singleton lb.char ++
    (if alert then "H" else "")

/-- The mutable instance fields of `DualTrafficLightAI` that the Mode State
Machine and Command Emitter read or write. -/
structure CtrlState where
  lightA : Light
  lightB : Light
  yellowStartTime : ℚ
  highTrafficStartTime : ℚ
  isYellowTransition : Bool
  isHighTrafficMode : Bool
  highTrafficDirection : Dir
deriving DecidableEq, Repr

/-- State after `__init__` (lines 52-60). -/
def initState : CtrlState where
  lightA := R
  lightB := G
  yellowStartTime := 0
  highTrafficStartTime := 0
  isYellowTransition := false
  isHighTrafficMode := false
  highTrafficDirection := Dir.B

/-- `send_commands` (lines 236-263).  Returns the new state and the list of
strings written to the serial link.  If the state did not change and no alert
is requested, it returns before any I/O; otherwise it writes, and only on a
successful write (`writeOk = true`) does it record the desired pair in
`light_a`/`light_b` (the assignment at lines 258-259 follows the write, and a
raised exception is caught at line 262 leaving the fields unchanged). -/
def sendCommands (s : CtrlState) (la lb : Light) (highTrafficAlert : Bool)
    (writeOk : Bool) : CtrlState × List String :=
  if s.lightA = la ∧ s.lightB = lb ∧ highTrafficAlert = false then
    (s, [])
  else if writeOk then
    ({ s with lightA := la, lightB := lb }, [cmdString la lb highTrafficAlert])
  else
    (s, [])

/-- `update_traffic_lights` (lines 274-433), one tick given the confirmed car
count, the current time and the success of this tick's serial write. -/
def updateTrafficLights (s : CtrlState) (carCount : ℤ) (now : ℚ)
    (writeOk : Bool) : CtrlState × List String :=
  if s.isYellowTransition then
    -- lines 279-313
    if YELLOW_DURATION ≤ now - s.yellowStartTime then
      if s.isHighTrafficMode then
        -- lines 282-291: complete the direction switch, restart the 30s timer
        let r := if s.highTrafficDirection = Dir.A then
                   sendCommands s G R false writeOk
                 else
                   sendCommands s R G false writeOk
        ({ r.1 with highTrafficStartTime := now, isYellowTransition := false },
         r.2)
      else if HIGH_TRAFFIC_THRESHOLD ≤ carCount then
        -- lines 293-301: enter high traffic mode with alert
        let r := if s.highTrafficDirection = Dir.A then
                   sendCommands s G R true writeOk
                 else
                   sendCommands s R G true writeOk
        ({ r.1 with isHighTrafficMode := true, highTrafficStartTime := now,
                    isYellowTransition := false }, r.2)
      else if carCount = 0 then
        -- lines 303-306: cross traffic gets green
        let r := sendCommands s R G false writeOk
        ({ r.1 with isYellowTransition := false }, r.2)
      else
        -- lines 307-310: AI gets green
        let r := sendCommands s G R false writeOk
        ({ r.1 with isYellowTransition := false }, r.2)
    else
      (s, [])
  else if HIGH_TRAFFIC_THRESHOLD ≤ carCount then
    -- lines 316-368
    if s.isHighTrafficMode = false then
      if s.lightA = G then
        -- lines 319-325: yellow transition, B will get green
        let r := sendCommands s Y R false writeOk
        ({ r.1 with isYellowTransition := true, yellowStartTime := now,
                    highTrafficDirection := Dir.B }, r.2)
      else if s.lightA = R then
        if ¬ s.lightB = G then
          -- line 329: activate high traffic mode with alert
          let r := sendCommands s R G true writeOk
          ({ r.1 with isHighTrafficMode := true, highTrafficStartTime := now,
                      highTrafficDirection := Dir.B }, r.2)
        else
          -- line 332: bare alert write, not wrapped in try; on failure the
          -- exception aborts the tick before the assignments at 333-335
          if writeOk then
            ({ s with isHighTrafficMode := true, highTrafficStartTime := now,
                      highTrafficDirection := Dir.B }, ["H\n"])
          else
            (s, [])
      else
        (s, [])
    else
      -- lines 338-368: already in high traffic mode
      if HIGH_TRAFFIC_TIMER ≤ now - s.highTrafficStartTime then
        if carCount = 0 then
          -- lines 341-345 (unreachable here since carCount ≥ 8, kept verbatim)
          (sendCommands { s with isHighTrafficMode := false } R G false writeOk)
        else
          -- lines 347-366: alternate directions; the timer is not restarted
          let d := if s.highTrafficDirection = Dir.A then Dir.B else Dir.A
          let r := if s.highTrafficDirection = Dir.A then
                     sendCommands s Y R false writeOk
                   else
                     sendCommands s R Y false writeOk
          ({ r.1 with highTrafficDirection := d, isYellowTransition := true,
                      yellowStartTime := now }, r.2)
      else
        (s, [])
  else
    -- lines 371-433
    if s.isHighTrafficMode then
      if carCount = 0 then
        -- lines 375-379: exit high traffic mode, cross traffic gets green
        (sendCommands { s with isHighTrafficMode := false } R G false writeOk)
      else
        -- lines 380-401: below threshold but not 0, keep alternating
        if HIGH_TRAFFIC_TIMER ≤ now - s.highTrafficStartTime then
          let d := if s.highTrafficDirection = Dir.A then Dir.B else Dir.A
          let r := if s.highTrafficDirection = Dir.A then
                     sendCommands s Y R false writeOk
                   else
                     sendCommands s R Y false writeOk
          ({ r.1 with highTrafficDirection := d, isYellowTransition := true,
                      yellowStartTime := now }, r.2)
        else
          (s, [])
    else
      -- lines 402-433: normal AI control logic
      if carCount = 0 then
        if s.lightA = G then
          -- lines 406-411: yellow transition toward cross traffic
          let r := sendCommands s Y R false writeOk
          ({ r.1 with isYellowTransition := true, yellowStartTime := now }, r.2)
        else if s.lightA = R then
          if ¬ s.lightB = G then
            sendCommands s R G false writeOk
          else
            (s, [])
        else
          (s, [])
      else if 1 ≤ carCount then
        if s.lightA = R then
          if s.lightB = G then
            -- lines 421-426: yellow transition toward AI control
            let r := sendCommands s R Y false writeOk
            ({ r.1 with isYellowTransition := true, yellowStartTime := now },
             r.2)
          else
            sendCommands s G R false writeOk
        else if s.lightA = G then
          if ¬ s.lightB = R then
            sendCommands s G R false writeOk
          else
            (s, [])
        else
          (s, [])
      else
        (s, [])

/-- The `key == ord('r')` branch of `run` (lines 660-668): the light fields
and mode flags are assigned first, then `send_commands('R', 'G')` is called. -/
def resetStep (s : CtrlState) (writeOk : Bool) : CtrlState × List String :=
  sendCommands
    { s with lightA := R, lightB := G, isYellowTransition := false,
             isHighTrafficMode := false, highTrafficDirection := Dir.B }
    R G false writeOk

/-- Controller states reachable from `initState` by any sequence of
`update_traffic_lights` ticks (arbitrary confirmed counts, times and write
outcomes) and reset events.  The initial `send_commands('R', 'G')` of `run`
(line 609) is a no-op on `initState` and needs no constructor. -/
inductive Reach : CtrlState → Prop
  | init : Reach initState
  | tick {s : CtrlState} (carCount : ℤ) (now : ℚ) (writeOk : Bool) :
      Reach s → Reach (updateTrafficLights s carCount now writeOk).1
  | reset {s : CtrlState} (writeOk : Bool) :
      Reach s → Reach (resetStep s writeOk).1

/-- Reachability along executions in which every serial write succeeds. -/
inductive ReachOk : CtrlState → Prop
  | init : ReachOk initState
  | tick {s : CtrlState} (carCount : ℤ) (now : ℚ) :
      ReachOk s → ReachOk (updateTrafficLights s carCount now true).1
  | reset {s : CtrlState} : ReachOk s → ReachOk (resetStep s true).1

/-- The four light pairs the controller ever displays. -/
def legalPair (a b : Light) : Prop :=
  (a = R ∧ b = G) ∨ (a = G ∧ b = R) ∨ (a = Y ∧ b = R) ∨ (a = R ∧ b = Y)

instance (a b : Light) : Decidable (legalPair a b) := by
  unfold legalPair; infer_instance

/-- `c ∈ {R, Y, G}` as a wire character check. -/
def isLightChar (c : Char) : Bool :=
  (c == 'R') || (c == 'Y') || (c == 'G')

/-- Whether a written string is a well-formed `A<c1>B<c2>[H]` token. -/
def wellFormedCmd (w : String) : Bool :=
  match w.data with
  | ['A', c1, 'B', c2] => isLightChar c1 && isLightChar c2
  | ['A', c1, 'B', c2, 'H'] => isLightChar c1 && isLightChar c2
  | _ => false

/-- Python's built-in `round` on the history mean: round half to even.  For
the means arising here (small integer numerators, denominators ≤ 10) the
float value `round` sees is either exactly the rational (all ties are at
multiples of `1/2`, exactly representable) or close enough that no non-tie is
moved across a boundary, so exact half-even rounding of the rational is a
faithful model. -/
def pyRound (q : ℚ) : ℤ :=
  if q - ⌊q⌋ < 1/2 then ⌊q⌋
  else if 1/2 < q - ⌊q⌋ then ⌊q⌋ + 1
  else if ⌊q⌋ % 2 = 0 then ⌊q⌋ else ⌊q⌋ + 1

/-- The mutable instance fields of the Detection Stabilizer (lines 90-93). -/
structure DetectState where
  detectionHistory : List ℤ
  confirmedCarCount : ℤ
  lastStateChangeTime : ℚ
  pendingCarCount : ℤ
deriving DecidableEq, Repr

/-- Stabilizer state after `__init__`, constructed at time `t0`
(`last_state_change_time = time.time()`, line 92). -/
def initDetect (t0 : ℚ) : DetectState where
  detectionHistory := []
  confirmedCarCount := 0
  lastStateChangeTime := t0
  pendingCarCount := 0

/-- Lines 139-143: append the sample, then `pop(0)` once if the history
exceeds `DETECTION_HISTORY_SIZE`. -/
def pushHistory (h : List ℤ) (c : ℤ) : List ℤ :=
  if DETECTION_HISTORY_SIZE < (h ++ [c]).length then (h ++ [c]).tail
  else h ++ [c]

/-- Lines 146-148: `round(sum(history) / len(history))` after pushing `c`. -/
def smoothedAfter (s : DetectState) (c : ℤ) : ℤ :=
  pyRound (((pushHistory s.detectionHistory c).sum : ℚ) /
    ((pushHistory s.detectionHistory c).length : ℚ))

/-- Lines 150-170: the `(state_changed, new_state)` pair computed from the
smoothed count after pushing the sample. -/
def scPair (s : DetectState) (c : ℤ) : Bool × ℤ :=
  if HIGH_TRAFFIC_THRESHOLD ≤ smoothedAfter s c then (true, smoothedAfter s c)
  else if s.confirmedCarCount = 0 ∧ 1 ≤ smoothedAfter s c then
    (true, smoothedAfter s c)
  else if 1 ≤ s.confirmedCarCount ∧ smoothedAfter s c = 0 then (true, 0)
  else if 0 < |smoothedAfter s c - s.confirmedCarCount| then
    (true, smoothedAfter s c)
  else (false, s.confirmedCarCount)

/-- `get_confirmed_car_count` (lines 131-200): one observation step, returning
the new stabilizer state and the confirmed count handed to the caller. -/
def getConfirmedCarCount (s : DetectState) (currentCount : ℤ) (now : ℚ) :
    DetectState × ℤ :=
  -- lines 152-170: decide whether the state is trying to change
  let sc := scPair s currentCount
  let s1 := { s with detectionHistory := pushHistory s.detectionHistory currentCount }
  if sc.1 then
    if ¬ sc.2 = s1.pendingCarCount then
      -- lines 175-179: new candidate, restart the confirmation timer
      let s2 := { s1 with pendingCarCount := sc.2, lastStateChangeTime := now }
      (s2, s2.confirmedCarCount)
    else
      -- lines 181-195: same candidate persisting; 1.5s for high traffic
      let required : ℚ :=
        if HIGH_TRAFFIC_THRESHOLD ≤ sc.2 then 3/2
        else DETECTION_CONFIRMATION_TIME
      if required ≤ now - s1.lastStateChangeTime then
        let s2 := { s1 with confirmedCarCount := sc.2, pendingCarCount := sc.2 }
        (s2, s2.confirmedCarCount)
      else
        (s1, s1.confirmedCarCount)
  else
    -- lines 196-198: no change, keep the confirmed count
    let s2 := { s1 with pendingCarCount := s1.confirmedCarCount }
    (s2, s2.confirmedCarCount)

/-- Fold `get_confirmed_car_count` over a list of timestamped samples. -/
def observeList (s : DetectState) (samples : List (ℤ × ℚ)) : DetectState :=
  samples.foldl (fun st p => (getConfirmedCarCount st p.1 p.2).1) s

/-- The guard at line 240 does *not* fire, i.e. the call reaches the
`arduino.write`: the desired pair differs from the recorded one or an alert
is requested. -/
def attemptsWrite (s : CtrlState) (la lb : Light) (alert : Bool) : Bool :=
  decide (¬ (s.lightA = la ∧ s.lightB = lb ∧ alert = false))

/-- Concrete reachable states used below.  From the initial state, a count of
3 starts a yellow clearance on B. -/
def stateRY : CtrlState := (updateTrafficLights initState 3 0 true).1

/-- Completing that clearance at count 3 gives A the green. -/
def stateGR : CtrlState := (updateTrafficLights stateRY 3 2 true).1

/-- From `{G, R}`, a count of 0 starts a yellow clearance on A. -/
def stateYR : CtrlState := (updateTrafficLights stateGR 0 4 true).1

/-- From the initial state, a count of 8 enters high-traffic mode (A already
red, B already green, so only the bare alert is written). -/
def stateHi1 : CtrlState := (updateTrafficLights initState 8 0 true).1

/-- 30 seconds later the window expires and the controller alternates toward
direction A, starting a yellow clearance on B. -/
def stateHi2 : CtrlState := (updateTrafficLights stateHi1 8 30 true).1

/-- Completing that clearance gives A the green while still in high-traffic
mode with active direction A. -/
def stateHiGR : CtrlState := (updateTrafficLights stateHi2 8 32 true).1

/-- The spec's `PostYellowOutcome` (§3): what a yellow clearance is for. -/
inductive PostYellowOutcome where
  | CrossGreen
  | AiGreen
  | HighTrafficDirection (d : Dir)
deriving DecidableEq, Repr

/-- Modelled from the spec: the light pair each `PostYellowOutcome` commits
(`CrossGreen` ↦ `{R, G}`, `AiGreen` ↦ `{G, R}`, `HighTrafficDirection d` ↦
green for side `d`). -/
def outcomeLights : PostYellowOutcome → Light × Light
  | .CrossGreen => (R, G)
  | .AiGreen => (G, R)
  | .HighTrafficDirection Dir.A => (G, R)
  | .HighTrafficDirection Dir.B => (R, G)

/-- Modelled from the spec: the target the spec says is recorded when a
clearance begins at confirmed count `c` (§4.3 table: `count ≥ HIGH` ↦
`HighTrafficDirection(B)`, `count = 0` ↦ `CrossGreen`, else `AiGreen`).
The code records no such target; this definition only expresses what the
claim asserts. -/
def specClearanceTarget (c : ℤ) : PostYellowOutcome :=
  if HIGH_TRAFFIC_THRESHOLD ≤ c then .HighTrafficDirection Dir.B
  else if c = 0 then .CrossGreen
  else .AiGreen

/-- The outcome `update_traffic_lights` actually commits when a yellow
clearance completes outside high-traffic mode (lines 293-310): recomputed
from the confirmed count at completion time and the stored direction. -/
def completionOutcome (s : CtrlState) (c : ℤ) : PostYellowOutcome :=
  if HIGH_TRAFFIC_THRESHOLD ≤ c then .HighTrafficDirection s.highTrafficDirection
  else if c = 0 then .CrossGreen
  else .AiGreen

/-! ## Helper lemmas -/

lemma sendCommands_fst (s : CtrlState) (la lb : Light) (al ok : Bool) :
    (sendCommands s la lb al ok).1 = s ∨
    (sendCommands s la lb al ok).1 = { s with lightA := la, lightB := lb } := by
  unfold sendCommands
  split
  · left; rfl
  split
  · right; rfl
  · left; rfl

/-- `resetStep` assigns the light fields before calling `send_commands`, whose
change check therefore always suppresses the write: no string is ever
written by a reset, whatever the prior state and write outcome. -/
lemma resetStep_eq (s : CtrlState) (ok : Bool) :
    resetStep s ok =
      ({ s with lightA := R, lightB := G, isYellowTransition := false,
                isHighTrafficMode := false, highTrafficDirection := Dir.B },
       []) := by
  simp [resetStep, sendCommands]

set_option maxHeartbeats 2000000 in
/-- One tick either leaves the light pair unchanged or displays one of the
four legal pairs. -/
lemma tick_pair (s : CtrlState) (c : ℤ) (t : ℚ) (ok : Bool) :
    ((updateTrafficLights s c t ok).1.lightA = s.lightA ∧
      (updateTrafficLights s c t ok).1.lightB = s.lightB) ∨
    legalPair (updateTrafficLights s c t ok).1.lightA
      (updateTrafficLights s c t ok).1.lightB := by
  unfold updateTrafficLights
  repeat' split
  all_goals simp only [sendCommands]
  all_goals repeat' split
  all_goals simp_all [legalPair]

lemma stateRY_eq : stateRY = ⟨R, Y, 0, 0, true, false, Dir.B⟩ := by
  norm_num [stateRY, updateTrafficLights, sendCommands, initState,
    YELLOW_DURATION, HIGH_TRAFFIC_THRESHOLD, HIGH_TRAFFIC_TIMER, cmdString]
  decide

lemma stateGR_eq : stateGR = ⟨G, R, 0, 0, false, false, Dir.B⟩ := by
  rw [stateGR, stateRY_eq]
  norm_num [updateTrafficLights, sendCommands,
    YELLOW_DURATION, HIGH_TRAFFIC_THRESHOLD, HIGH_TRAFFIC_TIMER, cmdString]
  decide

lemma stateYR_eq : stateYR = ⟨Y, R, 4, 0, true, false, Dir.B⟩ := by
  rw [stateYR, stateGR_eq]
  norm_num [updateTrafficLights, sendCommands,
    YELLOW_DURATION, HIGH_TRAFFIC_THRESHOLD, HIGH_TRAFFIC_TIMER, cmdString]
  decide

lemma stateHi1_eq : stateHi1 = ⟨R, G, 0, 0, false, true, Dir.B⟩ := by
  norm_num [stateHi1, updateTrafficLights, sendCommands, initState,
    YELLOW_DURATION, HIGH_TRAFFIC_THRESHOLD, HIGH_TRAFFIC_TIMER, cmdString]
  decide

lemma stateHi2_eq : stateHi2 = ⟨R, Y, 30, 0, true, true, Dir.A⟩ := by
  rw [stateHi2, stateHi1_eq]
  norm_num [updateTrafficLights, sendCommands,
    YELLOW_DURATION, HIGH_TRAFFIC_THRESHOLD, HIGH_TRAFFIC_TIMER, cmdString]
  decide

lemma stateHiGR_eq : stateHiGR = ⟨G, R, 30, 32, false, true, Dir.A⟩ := by
  rw [stateHiGR, stateHi2_eq]
  norm_num [updateTrafficLights, sendCommands,
    YELLOW_DURATION, HIGH_TRAFFIC_THRESHOLD, HIGH_TRAFFIC_TIMER, cmdString]
  decide

lemma scPair_cases (s : DetectState) (c : ℤ) :
    scPair s c = (true, smoothedAfter s c) ∨
    scPair s c = (false, s.confirmedCarCount) := by
  unfold scPair
  split_ifs <;> simp_all

lemma scPair_true_of (s : DetectState) (c : ℤ)
    (hne : ¬ smoothedAfter s c = s.confirmedCarCount) :
    scPair s c = (true, smoothedAfter s c) := by
  unfold scPair
  split_ifs <;> simp_all [sub_eq_zero]

lemma wellFormed_cmdString (la lb : Light) (al : Bool) :
    wellFormedCmd (cmdString la lb al) = true := by
  cases la <;> cases lb <;> cases al <;> decide

lemma cmdString_ne_bareAlert (la lb : Light) (al : Bool) :
    ¬ (cmdString la lb al = "H\n") := by
  cases la <;> cases lb <;> cases al <;> decide

lemma bareAlert_ne_cmdString (la lb : Light) (al : Bool) :
    ¬ ("H\n" = cmdString la lb al) := by
  cases la <;> cases lb <;> cases al <;> decide

lemma decide_int_le_false {a b : ℤ} (h : b < a) : decide (a ≤ b) = false :=
  decide_eq_false (not_le.mpr h)

lemma ite_int_le_false {α : Sort u_1} {a b : ℤ} (h : b < a) (x y : α) :
    (if a ≤ b then x else y) = y := if_neg (not_le.mpr h)

/-- Every reachable state displays one of the four legal pairs. -/
lemma reach_legalPair {s : CtrlState} (h : Reach s) :
    legalPair s.lightA s.lightB := by
  induction h with
  | init => decide
  | tick c t ok _ ih =>
      rcases tick_pair _ c t ok with ⟨hA, hB⟩ | h2
      · rw [hA, hB]; exact ih
      · exact h2
  | reset ok _ _ =>
      rw [resetStep_eq]
      simp [legalPair]

/-- Inductive invariant of failure-free executions: the lights form a legal
pair, the yellow-transition flag is set exactly when a Yellow is displayed,
and in a settled high-traffic window the active direction matches the green
side. -/
def InvOk (s : CtrlState) : Prop :=
  legalPair s.lightA s.lightB ∧
  (s.isYellowTransition = true ↔ (s.lightA = Y ∨ s.lightB = Y)) ∧
  (s.isHighTrafficMode = true → s.isYellowTransition = false →
    ((s.highTrafficDirection = Dir.A ∧ s.lightA = G ∧ s.lightB = R) ∨
     (s.highTrafficDirection = Dir.B ∧ s.lightA = R ∧ s.lightB = G)))

lemma invOk_init : InvOk initState := by
  refine ⟨?_, ?_, ?_⟩ <;> simp [initState, legalPair]

set_option maxHeartbeats 4000000 in
lemma invOk_tick (s : CtrlState) (c : ℤ) (t : ℚ) (h : InvOk s) :
    InvOk (updateTrafficLights s c t true).1 := by
  obtain ⟨la, lb, yst, htst, yt, htm, htd⟩ := s
  obtain ⟨h1, h2, h3⟩ := h
  cases yt <;> cases htm <;> cases htd <;> cases la <;> cases lb <;>
    simp_all [InvOk, legalPair] <;>
    (unfold updateTrafficLights; repeat' split) <;>
    simp_all [sendCommands, InvOk, legalPair]

lemma reachOk_invOk {s : CtrlState} (h : ReachOk s) : InvOk s := by
  induction h with
  | init => exact invOk_init
  | tick c t _ ih => exact invOk_tick _ c t ih
  | reset _ _ =>
      rw [resetStep_eq]
      refine ⟨?_, ?_, ?_⟩ <;> simp [legalPair]

/-! ## Claim theorems -/

/-- C1: for every reachable state of the controller (starting from the
initial pair A=Red, B=Green and evolving by any sequence of
`send_commands` / `update_traffic_lights` / reset steps, with arbitrary
counts, times and write outcomes), both directions are never Green at the
same instant, and whenever one direction is Yellow the other is Red. -/
theorem c1_no_dual_green_yellow_faces_red {s : CtrlState} (h : Reach s) :
    ¬ (s.lightA = G ∧ s.lightB = G) ∧
    (s.lightA = Y → s.lightB = R) ∧ (s.lightB = Y → s.lightA = R) := by
  rcases reach_legalPair h with ⟨hA, hB⟩ | ⟨hA, hB⟩ | ⟨hA, hB⟩ | ⟨hA, hB⟩ <;>
    rw [hA, hB] <;> refine ⟨?_, ?_, ?_⟩ <;> simp

/-- Witness for C1 at the initial state. -/
theorem c1_witness :
    ¬ (initState.lightA = G ∧ initState.lightB = G) ∧
    (initState.lightA = Y → initState.lightB = R) ∧
    (initState.lightB = Y → initState.lightA = R) :=
  c1_no_dual_green_yellow_faces_red Reach.init

/-- C10 (implicit): every reachable light pair is one of exactly four values
`(R,G)`, `(G,R)`, `(Y,R)`, `(R,Y)` — in particular both directions are never
simultaneously Red — and all four values are actually reached. -/
theorem c10_exactly_four_pairs :
    (∀ s : CtrlState, Reach s → legalPair s.lightA s.lightB) ∧
    (∀ s : CtrlState, Reach s → ¬ (s.lightA = R ∧ s.lightB = R)) ∧
    (∃ s, Reach s ∧ s.lightA = R ∧ s.lightB = G) ∧
    (∃ s, Reach s ∧ s.lightA = G ∧ s.lightB = R) ∧
    (∃ s, Reach s ∧ s.lightA = Y ∧ s.lightB = R) ∧
    (∃ s, Reach s ∧ s.lightA = R ∧ s.lightB = Y) := by
  refine ⟨fun s h => reach_legalPair h, fun s h => ?_, ?_, ?_, ?_, ?_⟩
  · rcases reach_legalPair h with ⟨hA, hB⟩ | ⟨hA, hB⟩ | ⟨hA, hB⟩ | ⟨hA, hB⟩ <;>
      rw [hA, hB] <;> simp
  · exact ⟨initState, Reach.init, rfl, rfl⟩
  · exact ⟨stateGR, Reach.tick 3 2 true (Reach.tick 3 0 true Reach.init),
      by rw [stateGR_eq], by rw [stateGR_eq]⟩
  · exact ⟨stateYR,
      Reach.tick 0 4 true (Reach.tick 3 2 true (Reach.tick 3 0 true Reach.init)),
      by rw [stateYR_eq], by rw [stateYR_eq]⟩
  · exact ⟨stateRY, Reach.tick 3 0 true Reach.init,
      by rw [stateRY_eq], by rw [stateRY_eq]⟩

/-- Witness for C10 at the initial state. -/
theorem c10_witness : legalPair initState.lightA initState.lightB :=
  c10_exactly_four_pairs.1 initState Reach.init

set_option maxRecDepth 10000 in
/-- C6 counterexample: a single outlier of 9 cars amid a stream of 0s, with
samples 4 seconds apart, changes `confirmed_count` from 0 to 2.  The rounded
history means after the outlier are 3, 2 (round 2.25), 2 (round 1.8): the
value 2 repeats, the pending candidate persists ≥ 3 s between the fourth and
fifth samples, and is committed — refuting "never changes confirmed_count,
for all sample timings". -/
theorem c6_counterexample :
    (initDetect 0).confirmedCarCount = 0 ∧
    (observeList (initDetect 0)
      [(0, 1), (0, 2), (9, 3), (0, 7), (0, 11)]).confirmedCarCount = 2 := by
  constructor
  · rfl
  · with_unfolding_all decide

/-- C6 (amended): a single observation changes `confirmed_count` only when
the smoothed count equals the already-pending candidate and at least the
required confirmation delay (1.5 s for candidates ≥ 8, else 3 s) has elapsed
since that candidate was installed; in particular the sample that first
installs an outlier as pending never changes `confirmed_count`.  With
sufficiently sparse sample timings a single outlier can therefore still be
committed (see the counterexample). -/
theorem c6_debounce (s : DetectState) (c : ℤ) (now : ℚ)
    (h : ¬ (getConfirmedCarCount s c now).1.confirmedCarCount =
      s.confirmedCarCount) :
    smoothedAfter s c = s.pendingCarCount ∧
    (getConfirmedCarCount s c now).1.confirmedCarCount = s.pendingCarCount ∧
    (if HIGH_TRAFFIC_THRESHOLD ≤ s.pendingCarCount then (3:ℚ)/2
      else DETECTION_CONFIRMATION_TIME) ≤ now - s.lastStateChangeTime := by
  rcases scPair_cases s c with hsc | hsc
  case inr => simp [getConfirmedCarCount, hsc] at h
  by_cases hp : smoothedAfter s c = s.pendingCarCount
  case neg => simp [getConfirmedCarCount, hsc, hp] at h
  by_cases ht :
      (if HIGH_TRAFFIC_THRESHOLD ≤ s.pendingCarCount then (3:ℚ)/2
        else DETECTION_CONFIRMATION_TIME) ≤ now - s.lastStateChangeTime
  case neg => simp [getConfirmedCarCount, hsc, hp, ht] at h
  exact ⟨hp, by simp [getConfirmedCarCount, hsc, hp, ht], ht⟩

set_option maxRecDepth 10000 in
/-- Witness for C6: the fifth sample of the counterexample stream commits
the outlier-induced pending value 2. -/
theorem c6_witness :
    ¬ (getConfirmedCarCount
        (observeList (initDetect 0) [(0, 1), (0, 2), (9, 3), (0, 7)]) 0
        11).1.confirmedCarCount =
      (observeList (initDetect 0)
        [(0, 1), (0, 2), (9, 3), (0, 7)]).confirmedCarCount ∧
    (smoothedAfter (observeList (initDetect 0)
        [(0, 1), (0, 2), (9, 3), (0, 7)]) 0 =
      (observeList (initDetect 0)
        [(0, 1), (0, 2), (9, 3), (0, 7)]).pendingCarCount ∧
     (getConfirmedCarCount
        (observeList (initDetect 0) [(0, 1), (0, 2), (9, 3), (0, 7)]) 0
        11).1.confirmedCarCount =
      (observeList (initDetect 0)
        [(0, 1), (0, 2), (9, 3), (0, 7)]).pendingCarCount ∧
     (if HIGH_TRAFFIC_THRESHOLD ≤ (observeList (initDetect 0)
          [(0, 1), (0, 2), (9, 3), (0, 7)]).pendingCarCount then (3:ℚ)/2
       else DETECTION_CONFIRMATION_TIME) ≤
      (11:ℚ) - (observeList (initDetect 0)
        [(0, 1), (0, 2), (9, 3), (0, 7)]).lastStateChangeTime) :=
  ⟨by with_unfolding_all decide,
   c6_debounce _ 0 11 (by with_unfolding_all decide)⟩

set_option maxRecDepth 10000 in
/-- C9 counterexample: negative inputs are not rejected.  Feeding −5 twice,
3 s apart, drives `confirmed_count` to −5 and leaves both invalid samples in
the history: the stabilizer performs no input validation at all (in the
program, its only caller `count_cars` happens to supply non-negative
counts). -/
theorem c9_counterexample :
    (observeList (initDetect 0) [(-5, 1), (-5, 5)]).confirmedCarCount = -5 ∧
    (observeList (initDetect 0) [(-5, 1), (-5, 5)]).detectionHistory =
      [-5, -5] ∧
    (getConfirmedCarCount (initDetect 0) (-5) 1).2 = 0 := by
  refine ⟨?_, ?_, ?_⟩ <;> with_unfolding_all decide

/-- C9 (amended): a negative raw count is not rejected but processed like
any other sample: it always enters the history; on the call that first makes
it the pending candidate the previous confirmed count is retained and
returned; and once it has persisted as the pending candidate for the
standard confirmation delay it *is* committed, so the stabilizer's state is
not protected against invalid input. -/
theorem c9_not_rejected (s : DetectState) (c : ℤ) (now : ℚ) (_hneg : c < 0) :
    (getConfirmedCarCount s c now).1.detectionHistory =
      pushHistory s.detectionHistory c ∧
    (¬ smoothedAfter s c = s.pendingCarCount →
      (getConfirmedCarCount s c now).1.confirmedCarCount =
        s.confirmedCarCount ∧
      (getConfirmedCarCount s c now).2 = s.confirmedCarCount) ∧
    (smoothedAfter s c = s.pendingCarCount →
      ¬ s.pendingCarCount = s.confirmedCarCount →
      DETECTION_CONFIRMATION_TIME ≤ now - s.lastStateChangeTime →
      ¬ HIGH_TRAFFIC_THRESHOLD ≤ s.pendingCarCount →
      (getConfirmedCarCount s c now).1.confirmedCarCount =
        s.pendingCarCount) := by
  refine ⟨?_, ?_, ?_⟩
  · rcases scPair_cases s c with hsc | hsc <;>
      · simp [getConfirmedCarCount, hsc]
        repeat' split
        all_goals simp_all
  · intro hns
    rcases scPair_cases s c with hsc | hsc
    · constructor <;> simp [getConfirmedCarCount, hsc, hns]
    · constructor <;> simp [getConfirmedCarCount, hsc]
  · intro hsm hpc ht hlow
    have hne : ¬ smoothedAfter s c = s.confirmedCarCount := by
      rw [hsm]; exact hpc
    have hsc := scPair_true_of s c hne
    simp [getConfirmedCarCount, hsc, hsm, hlow, ht]

/-- Witness for C9: the first −5 sample fed to the freshly initialised
stabilizer. -/
theorem c9_witness :
    (getConfirmedCarCount (initDetect 0) (-5) 1).1.detectionHistory =
      pushHistory (initDetect 0).detectionHistory (-5) ∧
    (¬ smoothedAfter (initDetect 0) (-5) = (initDetect 0).pendingCarCount →
      (getConfirmedCarCount (initDetect 0) (-5) 1).1.confirmedCarCount =
        (initDetect 0).confirmedCarCount ∧
      (getConfirmedCarCount (initDetect 0) (-5) 1).2 =
        (initDetect 0).confirmedCarCount) ∧
    (smoothedAfter (initDetect 0) (-5) = (initDetect 0).pendingCarCount →
      ¬ (initDetect 0).pendingCarCount = (initDetect 0).confirmedCarCount →
      DETECTION_CONFIRMATION_TIME ≤ (1:ℚ) - (initDetect 0).lastStateChangeTime →
      ¬ HIGH_TRAFFIC_THRESHOLD ≤ (initDetect 0).pendingCarCount →
      (getConfirmedCarCount (initDetect 0) (-5) 1).1.confirmedCarCount =
        (initDetect 0).pendingCarCount) :=
  c9_not_rejected (initDetect 0) (-5) 1 (by decide)

/-- C7: if the actuator write raises during an emit that was actually
attempted (the desired pair differs from the recorded one, or an alert is
requested), the recorded pair is left unchanged and nothing is written, so a
subsequent call with the same arguments attempts the write again; the desired
pair is recorded only on a successful write. -/
theorem c7_failed_write_retries (s : CtrlState) (la lb : Light) (al : Bool)
    (h : attemptsWrite s la lb al = true) :
    (sendCommands s la lb al false).1 = s ∧
    (sendCommands s la lb al false).2 = [] ∧
    attemptsWrite (sendCommands s la lb al false).1 la lb al = true ∧
    (sendCommands s la lb al true).1.lightA = la ∧
    (sendCommands s la lb al true).1.lightB = lb := by
  have hc : ¬ (s.lightA = la ∧ s.lightB = lb ∧ al = false) :=
    of_decide_eq_true h
  refine ⟨?_, ?_, ?_, ?_, ?_⟩ <;>
    simp [sendCommands, attemptsWrite, hc]

/-- Witness for C7: from the initial state `{R, G}`, emitting `{G, R}`. -/
theorem c7_witness :
    attemptsWrite initState G R false = true ∧
    (sendCommands initState G R false false).1 = initState ∧
    (sendCommands initState G R false false).2 = [] :=
  ⟨by decide,
   (c7_failed_write_retries initState G R false (by decide)).1,
   (c7_failed_write_retries initState G R false (by decide)).2.1⟩

/-- C8: calling the Command Emitter twice with the same desired pair and
`alert = false` issues exactly one write: when the pair differs from the
recorded one and the write succeeds, the first call transmits exactly one
command, and the second call performs no I/O at all (it returns before
reaching the link, whatever that write's outcome would have been). -/
theorem c8_emit_idempotent (s : CtrlState) (la lb : Light)
    (h : ¬ (s.lightA = la ∧ s.lightB = lb)) :
    (sendCommands s la lb false true).2 = [cmdString la lb false] ∧
    ∀ ok₂ : Bool,
      sendCommands (sendCommands s la lb false true).1 la lb false ok₂ =
        ((sendCommands s la lb false true).1, []) := by
  constructor
  · simp [sendCommands, h]
  · intro ok₂
    simp [sendCommands, h]

/-- Witness for C8: from the initial state `{R, G}`, emitting `{G, R}`
twice. -/
theorem c8_witness :
    ¬ (initState.lightA = G ∧ initState.lightB = R) ∧
    (sendCommands initState G R false true).2 = [cmdString G R false] ∧
    sendCommands (sendCommands initState G R false true).1 G R false true =
      ((sendCommands initState G R false true).1, []) :=
  ⟨by decide, (c8_emit_idempotent initState G R (by decide)).1,
   (c8_emit_idempotent initState G R (by decide)).2 true⟩

/-- C2 counterexample: `stateHiGR` is reachable (all writes succeeding) via
entering high-traffic mode at count 8 and one 30-second alternation toward
direction A; its lights are `{A=Green, B=Red}` and no yellow clearance is
running.  A single tick with confirmed count 0 — exiting high-traffic mode,
lines 375-378 — commits `{A=Red, B=Green}` and transmits it: side A changes
Green→Red in one step with no intermediate Yellow, refuting the claim that
the controller never commits a direct Green-to-Red change. -/
theorem c2_counterexample :
    ReachOk stateHiGR ∧ stateHiGR.lightA = G ∧ stateHiGR.lightB = R ∧
    stateHiGR.isYellowTransition = false ∧
    (updateTrafficLights stateHiGR 0 33 true).1.lightA = R ∧
    (updateTrafficLights stateHiGR 0 33 true).1.lightB = G ∧
    (updateTrafficLights stateHiGR 0 33 true).2 = [cmdString R G false] := by
  refine ⟨ReachOk.tick 8 32 (ReachOk.tick 8 30 (ReachOk.tick 8 0 ReachOk.init)),
    by rw [stateHiGR_eq], by rw [stateHiGR_eq], by rw [stateHiGR_eq],
    ?_, ?_, ?_⟩ <;>
  · rw [stateHiGR_eq]
    norm_num [updateTrafficLights, sendCommands,
      YELLOW_DURATION, HIGH_TRAFFIC_THRESHOLD, HIGH_TRAFFIC_TIMER]
    try decide

set_option maxHeartbeats 4000000 in
/-- C2 (amended): on executions in which every write succeeds, a running
yellow clearance is a strict no-op until `YELLOW_DURATION` has elapsed (so a
Yellow, once begun, is displayed for at least 2 s before any Red is
committed); side B never changes Green→Red in a single tick; and side A
changes Green→Red in a single tick only when exiting high-traffic mode on a
confirmed count of 0 — every other Green→Red change passes through Yellow.
(An external reset also forces `{Red, Green}` directly.) -/
theorem c2_green_to_red_discipline (s : CtrlState) (c : ℤ) (t : ℚ)
    (h : ReachOk s) :
    (s.isYellowTransition = true → t - s.yellowStartTime < YELLOW_DURATION →
      updateTrafficLights s c t true = (s, [])) ∧
    (s.lightB = G → ¬ (updateTrafficLights s c t true).1.lightB = R) ∧
    (s.lightA = G → (updateTrafficLights s c t true).1.lightA = R →
      s.isHighTrafficMode = true ∧ c = 0) := by
  obtain ⟨h1, h2, h3⟩ := reachOk_invOk h
  refine ⟨?_, ?_, ?_⟩
  · intro hy hel
    simp [updateTrafficLights, hy, not_le.mpr hel]
  all_goals (
    obtain ⟨la, lb, yst, htst, yt, htm, htd⟩ := s
    cases yt <;> cases htm <;> cases htd <;> cases la <;> cases lb <;>
      simp_all [legalPair] <;>
      (unfold updateTrafficLights; repeat' split) <;>
      simp_all [sendCommands])

/-- Witness for C2 at the initial state. -/
theorem c2_witness :
    (initState.isYellowTransition = true →
      (7:ℚ) - initState.yellowStartTime < YELLOW_DURATION →
      updateTrafficLights initState 5 7 true = (initState, [])) ∧
    (initState.lightB = G →
      ¬ (updateTrafficLights initState 5 7 true).1.lightB = R) ∧
    (initState.lightA = G →
      (updateTrafficLights initState 5 7 true).1.lightA = R →
      initState.isHighTrafficMode = true ∧ (5:ℤ) = 0) :=
  c2_green_to_red_discipline initState 5 7 ReachOk.init

/-- C3 counterexample: `stateRY` is the clearance begun from the initial
state by a tick with confirmed count 3, for which the spec records the
target `AiGreen` (lights `{G, R}`).  Completing the clearance with the
confirmed count changed to 0 commits `{R, G}` instead: the controller does
not commit the outcome recorded when the clearance began — it recomputes the
outcome from the count at completion time. -/
theorem c3_counterexample :
    Reach stateRY ∧ stateRY.isYellowTransition = true ∧
    specClearanceTarget 3 = PostYellowOutcome.AiGreen ∧
    outcomeLights PostYellowOutcome.AiGreen = (G, R) ∧
    (updateTrafficLights stateRY 0 2 true).1.isYellowTransition = false ∧
    (updateTrafficLights stateRY 0 2 true).1.lightA = R ∧
    (updateTrafficLights stateRY 0 2 true).1.lightB = G := by
  refine ⟨Reach.tick 3 0 true Reach.init, by rw [stateRY_eq],
    by norm_num [specClearanceTarget, HIGH_TRAFFIC_THRESHOLD],
    by decide, ?_, ?_, ?_⟩ <;>
  · rw [stateRY_eq]
    norm_num [updateTrafficLights, sendCommands,
      YELLOW_DURATION, HIGH_TRAFFIC_THRESHOLD, HIGH_TRAFFIC_TIMER]
    try decide

set_option maxHeartbeats 2000000 in
/-- C3 (amended): when a yellow clearance completes (elapsed ≥
`YELLOW_DURATION`), the outcome is determined at completion time, not
recorded at the start: in high-traffic mode the stored direction is
committed with no alert (any command written is the plain unflagged token
for the committed lights) and the 30 s window restarts now; otherwise the
outcome is recomputed from the current confirmed count (≥ 8 ↦ enter
high-traffic mode with a one-shot alert command and window start now, 0 ↦
CrossGreen, else ↦ AiGreen). -/
theorem c3_yellow_completion_commit (s : CtrlState) (c : ℤ) (t : ℚ)
    (hy : s.isYellowTransition = true)
    (hel : YELLOW_DURATION ≤ t - s.yellowStartTime) :
    (updateTrafficLights s c t true).1.isYellowTransition = false ∧
    (s.isHighTrafficMode = true →
      ((updateTrafficLights s c t true).1.lightA,
        (updateTrafficLights s c t true).1.lightB) =
          outcomeLights (.HighTrafficDirection s.highTrafficDirection) ∧
      (updateTrafficLights s c t true).1.isHighTrafficMode = true ∧
      (updateTrafficLights s c t true).1.highTrafficStartTime = t ∧
      ((updateTrafficLights s c t true).2 = [] ∨
       (updateTrafficLights s c t true).2 =
         [cmdString
           (outcomeLights (.HighTrafficDirection s.highTrafficDirection)).1
           (outcomeLights (.HighTrafficDirection s.highTrafficDirection)).2
           false])) ∧
    (s.isHighTrafficMode = false →
      ((updateTrafficLights s c t true).1.lightA,
        (updateTrafficLights s c t true).1.lightB) =
          outcomeLights (completionOutcome s c) ∧
      ((updateTrafficLights s c t true).1.isHighTrafficMode =
        decide (HIGH_TRAFFIC_THRESHOLD ≤ c)) ∧
      (HIGH_TRAFFIC_THRESHOLD ≤ c →
        (updateTrafficLights s c t true).1.highTrafficStartTime = t ∧
        (updateTrafficLights s c t true).2 =
          [cmdString (outcomeLights (completionOutcome s c)).1
            (outcomeLights (completionOutcome s c)).2 true])) := by
  obtain ⟨la, lb, yst, htst, yt, htm, htd⟩ := s
  cases yt <;> cases htm <;> cases htd <;>
    simp_all [updateTrafficLights, hel] <;>
    (repeat' split) <;>
    simp_all [sendCommands, completionOutcome, outcomeLights,
      decide_int_le_false, ite_int_le_false, HIGH_TRAFFIC_THRESHOLD,
      apply_ite] <;>
    tauto

/-- Witness for C3: completing the clearance `stateRY` at count 3. -/
theorem c3_witness :
    stateRY.isYellowTransition = true ∧
    YELLOW_DURATION ≤ (2:ℚ) - stateRY.yellowStartTime ∧
    ((updateTrafficLights stateRY 3 2 true).1.isYellowTransition = false ∧
     (stateRY.isHighTrafficMode = true →
       ((updateTrafficLights stateRY 3 2 true).1.lightA,
         (updateTrafficLights stateRY 3 2 true).1.lightB) =
           outcomeLights (.HighTrafficDirection stateRY.highTrafficDirection) ∧
       (updateTrafficLights stateRY 3 2 true).1.isHighTrafficMode = true ∧
       (updateTrafficLights stateRY 3 2 true).1.highTrafficStartTime = 2 ∧
       ((updateTrafficLights stateRY 3 2 true).2 = [] ∨
        (updateTrafficLights stateRY 3 2 true).2 =
          [cmdString
            (outcomeLights
              (.HighTrafficDirection stateRY.highTrafficDirection)).1
            (outcomeLights
              (.HighTrafficDirection stateRY.highTrafficDirection)).2
            false])) ∧
     (stateRY.isHighTrafficMode = false →
       ((updateTrafficLights stateRY 3 2 true).1.lightA,
         (updateTrafficLights stateRY 3 2 true).1.lightB) =
           outcomeLights (completionOutcome stateRY 3) ∧
       ((updateTrafficLights stateRY 3 2 true).1.isHighTrafficMode =
         decide (HIGH_TRAFFIC_THRESHOLD ≤ (3:ℤ))) ∧
       (HIGH_TRAFFIC_THRESHOLD ≤ (3:ℤ) →
         (updateTrafficLights stateRY 3 2 true).1.highTrafficStartTime = 2 ∧
         (updateTrafficLights stateRY 3 2 true).2 =
           [cmdString (outcomeLights (completionOutcome stateRY 3)).1
             (outcomeLights (completionOutcome stateRY 3)).2 true]))) :=
  ⟨by rw [stateRY_eq], by rw [stateRY_eq]; norm_num [YELLOW_DURATION],
   c3_yellow_completion_commit stateRY 3 2 (by rw [stateRY_eq])
     (by rw [stateRY_eq]; norm_num [YELLOW_DURATION])⟩

/-- C4 counterexample: from the (reachable) initial state, a tick with
count 8 — high traffic detected while A is already Red and B already Green —
performs the raw `arduino.write(b'H\n')` of line 332: the write consists of
the alert flag alone and is not of the form `A<c1>B<c2>[H]`, refuting the
claim that every byte sequence written is such a token and that no write
ever consists of an alert flag alone. -/
theorem c4_counterexample :
    (updateTrafficLights initState 8 0 true).2 = ["H\n"] ∧
    wellFormedCmd "H\n" = false := by
  constructor
  · norm_num [updateTrafficLights, sendCommands, initState,
      YELLOW_DURATION, HIGH_TRAFFIC_THRESHOLD, HIGH_TRAFFIC_TIMER]
    decide
  · decide

set_option maxHeartbeats 2000000 in
/-- C4 (amended): every step writes at most one string; each written string
is either a well-formed `A<c1>B<c2>[H]` token or the bare alert `"H\n"`; and
the bare alert is written exactly when high traffic is first detected
(count ≥ 8, not already in high-traffic mode, no yellow clearance running)
while the lights are already `{A=Red, B=Green}` and the write succeeds. -/
theorem c4_wire_format (s : CtrlState) (c : ℤ) (t : ℚ) (ok : Bool) :
    ((updateTrafficLights s c t ok).2.all
      (fun w => wellFormedCmd w || (w == "H\n")) = true) ∧
    (updateTrafficLights s c t ok).2.length ≤ 1 ∧
    ((updateTrafficLights s c t ok).2.contains "H\n" =
      (ok && !s.isYellowTransition && !s.isHighTrafficMode &&
        decide (HIGH_TRAFFIC_THRESHOLD ≤ c) &&
        (s.lightA == R) && (s.lightB == G))) := by
  unfold updateTrafficLights
  repeat' split
  all_goals simp only [sendCommands]
  all_goals repeat' split
  all_goals simp_all [wellFormed_cmdString, cmdString_ne_bareAlert,
    bareAlert_ne_cmdString, decide_int_le_false, List.contains, List.any]

/-- C5 (code bug): the reset branch assigns `light_a`/`light_b` *before*
calling `send_commands('R', 'G')`, so the change check at line 240 always
suppresses the write.  At the reachable state `stateGR` (lights `{G, R}`)
a reset forces mode Normal and lights `{R, G}` but writes nothing to the
actuator, leaving the physical lights desynchronized — contradicting the
unconditional re-send the claim (and the evident intent of the dead
`send_commands` call) describes. -/
theorem c5_reset_never_writes :
    Reach stateGR ∧ stateGR.lightA = G ∧ stateGR.lightB = R ∧
    (resetStep stateGR true).2 = [] ∧
    (resetStep stateGR true).1.lightA = R ∧
    (resetStep stateGR true).1.lightB = G ∧
    (resetStep stateGR true).1.isYellowTransition = false ∧
    (resetStep stateGR true).1.isHighTrafficMode = false :=
  ⟨Reach.tick 3 2 true (Reach.tick 3 0 true Reach.init),
   by rw [stateGR_eq], by rw [stateGR_eq],
   by rw [resetStep_eq], by rw [resetStep_eq], by rw [resetStep_eq],
   by rw [resetStep_eq], by rw [resetStep_eq]⟩

end TrafficLight
